import Mathlib

/-!
Shallow embedding of `src/chronokit/trackers.py` (pyswissknife).

Timestamps (Python floats produced by `time.perf_counter`) are modelled as
rationals.  Each Python method becomes a Lean function from the tracker
state to a `StepResult`: the new state, the Python outcome (a returned
value or a raised exception), and the list of warning messages emitted
during the call.  The caller frame information that `inspect` extracts is
passed in as explicit `loc`/`line` parameters.

Python tuples and lists are distinguished where it matters: the blocked
log stores 3-tuples in memory, but `json.dump`/`json.load` turn them into
JSON arrays that come back as Python lists, so `BlockedEntry` carries a
constructor tag for the container kind.
-/

namespace Chronokit

/-- A record of the blocked log.  `tup` is the in-memory Python 3-tuple
`(local, line, reason)` appended by `_save_block_log`; `arr` is the same
data after a JSON round trip, where the tuple has become a list. -/
inductive BlockedEntry where
  | tup (loc : String) (line : Nat) (reason : String)
  | arr (loc : String) (line : Nat) (reason : String)
deriving DecidableEq, Repr

/-- Serialisation of a blocked record: `json.dump` writes both Python tuples
and lists as JSON arrays, and `json.load` reads arrays back as lists. -/
def BlockedEntry.jsonRoundTrip : BlockedEntry → BlockedEntry
  | .tup l n r => .arr l n r
  | .arr l n r => .arr l n r

/-- The `track_log` dictionary of a `TimeTracker`. -/
structure TrackLog where
  start : List ℚ
  stop : List ℚ
  blocked : List BlockedEntry
deriving DecidableEq, Repr

/-- The mutable state of a Python `TimeTracker` instance. -/
structure TimeTracker where
  name : String
  is_running : Bool
  elapsed_time : Option ℚ
  total_elapsed_time : Option ℚ
  track_log : TrackLog
  file_name : String
deriving DecidableEq, Repr

/-- A Python value as returned by the tracker methods: `None` or a float. -/
inductive PyValue where
  | none
  | num (q : ℚ)
deriving DecidableEq, Repr

/-- Outcome of a Python call: a returned value or a raised exception. -/
inductive PyOutcome where
  | ret (v : PyValue)
  | exn (e : String)
deriving DecidableEq, Repr

/-- Result of one method call: new state, outcome, warnings emitted. -/
structure StepResult where
  state : TimeTracker
  out : PyOutcome
  warns : List String
deriving DecidableEq, Repr

namespace TimeTracker

/-- Python constructor `TimeTracker.__init__`. -/
def init (name : String) : TimeTracker :=
  { name := name
    is_running := false
    elapsed_time := none
    total_elapsed_time := none
    track_log := { start := [], stop := [], blocked := [] }
    file_name := "chronodata_" ++ name ++ ".json" }

/-- Model of `_save_block_log` inside `_bug_blocker`: warns and appends the 3-tuple
`(local, line, "Blocked: <qualname>; <reason>")` to the blocked log.
Returns the updated tracker and the warning message. -/
def _save_block_log (t : TimeTracker) (line : Nat) (loc : String)
    (qualname reason : String) : TimeTracker × String :=
  let msg := "Blocked: " ++ qualname ++ "; " ++ reason
  ({ t with track_log :=
      { t.track_log with
        blocked := t.track_log.blocked ++ [BlockedEntry.tup loc line msg] } },
   msg)

/-- Model of `TimeTracker.start` together with its `_bug_blocker` guard.  `ts` is the
value `time.perf_counter()` would return inside the call. -/
def start (loc : String) (line : Nat) (ts : ℚ) (t : TimeTracker) : StepResult :=
  if t.is_running then
    let (t2, w) := _save_block_log t line loc "TimeTracker.start" "Double call!"
    { state := t2, out := .ret .none, warns := [w] }
  else
    let t2 := { t with is_running := true }
    { state := { t2 with track_log :=
        { t2.track_log with start := t2.track_log.start ++ [ts] } }
      out := .ret (.num ts)
      warns := [] }

/-- Model of `TimeTracker.stop` together with its `_bug_blocker` guard. -/
def stop (loc : String) (line : Nat) (ts : ℚ) (t : TimeTracker) : StepResult :=
  if !t.is_running then
    let (t2, w) := _save_block_log t line loc "TimeTracker.stop" "Double call!"
    { state := t2, out := .ret .none, warns := [w] }
  else
    let t2 := { t with is_running := false }
    { state := { t2 with track_log :=
        { t2.track_log with stop := t2.track_log.stop ++ [ts] } }
      out := .ret (.num ts)
      warns := [] }

/-- The loop `for start, stop in zip(start_log, stop_log): acc += stop - start`. -/
def zipSum : List ℚ → List ℚ → ℚ
  | a :: as, b :: bs => (b - a) + zipSum as bs
  | _, _ => 0

/-- Body of `TimeTracker.get_elapsed_time` (after the guard has let it
through).  Faithful to the source:

* `total_elapsed_time` is set first, from `stop_log[-1] - start_log[0]`;
* the local accumulator `_elapsed_time` is initialised to `0` only when
  `self.elapsed_time is None`;
* when `is_running`, `start_log.pop()` mutates the list aliased by
  the list held under the start key of `self.track_log`, so the last
  start is removed from the state;
* when the accumulator was never initialised, the `+=` in the loop (or the
  final assignment, when the zip is empty) raises `UnboundLocalError`,
  after the mutations above have already happened. -/
def get_elapsed_time_body (t : TimeTracker) (warns : List String) : StepResult :=
  let total := t.track_log.stop.getLastD 0 - t.track_log.start.headD 0
  let t1 := { t with total_elapsed_time := some total }
  let sLog := if t1.is_running then t1.track_log.start.dropLast
              else t1.track_log.start
  let t2 := { t1 with track_log := { t1.track_log with start := sLog } }
  match t.elapsed_time with
  | some _ =>
      { state := t2, out := .exn "UnboundLocalError", warns := warns }
  | none =>
      let s := zipSum sLog t2.track_log.stop
      { state := { t2 with elapsed_time := some s }
        out := .ret (.num s)
        warns := warns }

/-- Model of `TimeTracker.get_elapsed_time` together with its `_bug_blocker` guard. -/
def get_elapsed_time (loc : String) (line : Nat) (t : TimeTracker) : StepResult :=
  if t.track_log.start.isEmpty then
    let (t2, w) := _save_block_log t line loc "TimeTracker.get_elapsed_time"
      "The tracker hasn\x27t started yet!"
    { state := t2, out := .ret .none, warns := [w] }
  else if t.track_log.stop.isEmpty then
    let (t2, w) := _save_block_log t line loc "TimeTracker.get_elapsed_time"
      "The tracker hasn\x27t been completed yet!"
    { state := t2, out := .ret .none, warns := [w] }
  else if t.is_running then
    get_elapsed_time_body t
      ["Opened tracker. Only closed trackers will be calculated."]
  else
    get_elapsed_time_body t []

/-- The parsed content of a `chronodata_<name>.json` file: the five
top-level keys, each `none` when the key is absent from the object.  A
whole file that does not parse is modelled as `(none : Option FileData)`
at the call sites of `load`. -/
structure FileData where
  name_field : Option String
  running_field : Option Bool
  elapsed_field : Option (Option ℚ)
  total_field : Option (Option ℚ)
  log_field : Option TrackLog
deriving DecidableEq, Repr

/-- The `data` dictionary that `TimeTracker.save` passes to `json.dump`,
after serialisation: every key present, and each blocked-log 3-tuple
written out as a JSON array. -/
def save_data (t : TimeTracker) : FileData :=
  { name_field := some t.name
    running_field := some t.is_running
    elapsed_field := some t.elapsed_time
    total_field := some t.total_elapsed_time
    log_field := some
      { start := t.track_log.start
        stop := t.track_log.stop
        blocked := t.track_log.blocked.map BlockedEntry.jsonRoundTrip } }

/-- The path `TimeTracker.save` (and `load`) builds from `dir_path` and
`self.file_name`. -/
def save_path (t : TimeTracker) (dir_path : Option String) : String :=
  match dir_path with
  | Option.none => t.file_name
  | some d => d ++ "/" ++ t.file_name

/-- Model of `TimeTracker.load`, given the parsed content of the file it opened
(`none` = the file body was not valid JSON, so `json.load` raises before
any field assignment).  The five `self.<field> = data[<key>]` statements
run in source order; a missing key raises `KeyError` at that point,
leaving the fields already assigned replaced and the rest untouched.
`file_name` is never reassigned. -/
def load (t : TimeTracker) (content : Option FileData) :
    TimeTracker × PyOutcome :=
  match content with
  | Option.none => (t, .exn "JSONDecodeError")
  | some d =>
    match d.name_field with
    | Option.none => (t, .exn "KeyError: name")
    | some nm =>
      let t1 := { t with name := nm }
      match d.running_field with
      | Option.none => (t1, .exn "KeyError: is_running")
      | some r =>
        let t2 := { t1 with is_running := r }
        match d.elapsed_field with
        | Option.none => (t2, .exn "KeyError: elapsed_time")
        | some e =>
          let t3 := { t2 with elapsed_time := e }
          match d.total_field with
          | Option.none => (t3, .exn "KeyError: total_elapsed_time")
          | some tot =>
            let t4 := { t3 with total_elapsed_time := tot }
            match d.log_field with
            | Option.none => (t4, .exn "KeyError: log")
            | some lg => ({ t4 with track_log := lg }, .ret .none)

end TimeTracker

namespace ExecutionTimeTracker

/-- Python constructor `ExecutionTimeTracker.__init__`: the wrapped callable is kept outside
the tracker state; the inherited `TimeTracker` state is initialised with
the qualified name of the callable. -/
def init (qualname : String) : TimeTracker :=
  TimeTracker.init qualname

/-- Model of `ExecutionTimeTracker.__call__`: `self.start()`, invoke the wrapped
callable, `self.stop()`, return the result of the callable.  `ts1`/`ts2` are
the `perf_counter` readings inside the two guarded calls. -/
def call {α β : Type} (f : α → β) (loc : String) (line : Nat)
    (ts1 ts2 : ℚ) (t : TimeTracker) (x : α) : TimeTracker × β :=
  let r1 := TimeTracker.start loc line ts1 t
  let out := f x
  let r2 := TimeTracker.stop loc line ts2 r1.state
  (r2.state, out)

/-- A sequence of invocations: each list element gives the two
`perf_counter` readings and the argument of one call. -/
def calls {α β : Type} (f : α → β) (loc : String) (line : Nat) :
    List (ℚ × ℚ × α) → TimeTracker → TimeTracker
  | [], t => t
  | (a, b, x) :: rest, t =>
      calls f loc line rest (call f loc line a b t x).1

end ExecutionTimeTracker

/-- Chronological ordering of the two logs, as produced by a monotone clock
such as `time.perf_counter`: each start is at or before its stop, and each
stop is at or before the next start. -/
def chronLogs : List ℚ → List ℚ → Bool
  | a :: as, b :: bs =>
      (decide (a ≤ b) &&
        (match as with
         | [] => true
         | a2 :: _ => decide (b ≤ a2))) &&
      chronLogs as bs
  | _, _ => true

/-- Gapless logs: each stop coincides with the next start. -/
def gaplessLogs : List ℚ → List ℚ → Bool
  | _ :: as, b :: bs =>
      (match as with
       | [] => true
       | a2 :: _ => decide (b = a2)) &&
      gaplessLogs as bs
  | _, _ => true

/-! Helper lemmas about the summation loop. -/

theorem zipSum_le_span (as : List ℚ) :
    ∀ (a b : ℚ) (bs : List ℚ), as.length = bs.length →
      chronLogs (a :: as) (b :: bs) = true →
      TimeTracker.zipSum (a :: as) (b :: bs) ≤ (b :: bs).getLastD 0 - a := by
  induction as with
  | nil =>
      intro a b bs hlen _
      cases bs with
      | nil => simp [TimeTracker.zipSum, List.getLastD]
      | cons b2 bs' => simp at hlen
  | cons a2 as' ih =>
      intro a b bs hlen hchron
      cases bs with
      | nil => simp at hlen
      | cons b2 bs' =>
          have hlen' : as'.length = bs'.length := by simpa using hlen
          have hc : (a ≤ b ∧ b ≤ a2) ∧ chronLogs (a2 :: as') (b2 :: bs') = true := by
            simpa [chronLogs, Bool.and_eq_true, decide_eq_true_eq] using hchron
          have hih := ih a2 b2 bs' hlen' hc.2
          have hlast : (b :: b2 :: bs').getLastD 0 = (b2 :: bs').getLastD 0 := by
            simp [List.getLastD_cons]
          have hsum : TimeTracker.zipSum (a :: a2 :: as') (b :: b2 :: bs') =
              (b - a) + TimeTracker.zipSum (a2 :: as') (b2 :: bs') := rfl
          rw [hsum, hlast]
          have hba : b - a ≤ a2 - a := by linarith [hc.1.2]
          linarith

theorem zipSum_eq_span_of_gapless (as : List ℚ) :
    ∀ (a b : ℚ) (bs : List ℚ), as.length = bs.length →
      gaplessLogs (a :: as) (b :: bs) = true →
      TimeTracker.zipSum (a :: as) (b :: bs) = (b :: bs).getLastD 0 - a := by
  induction as with
  | nil =>
      intro a b bs hlen _
      cases bs with
      | nil => simp [TimeTracker.zipSum, List.getLastD]
      | cons b2 bs' => simp at hlen
  | cons a2 as' ih =>
      intro a b bs hlen hgap
      cases bs with
      | nil => simp at hlen
      | cons b2 bs' =>
          have hlen' : as'.length = bs'.length := by simpa using hlen
          have hg : b = a2 ∧ gaplessLogs (a2 :: as') (b2 :: bs') = true := by
            simpa [gaplessLogs, Bool.and_eq_true, decide_eq_true_eq] using hgap
          have hih := ih a2 b2 bs' hlen' hg.2
          have hlast : (b :: b2 :: bs').getLastD 0 = (b2 :: bs').getLastD 0 := by
            simp [List.getLastD_cons]
          have hsum : TimeTracker.zipSum (a :: a2 :: as') (b :: b2 :: bs') =
              (b - a) + TimeTracker.zipSum (a2 :: as') (b2 :: bs') := rfl
          rw [hsum, hlast, hih, hg.1]
          ring

theorem calls_appends {α β : Type} (f : α → β) (loc : String) (line : Nat) :
    ∀ (l : List (ℚ × ℚ × α)) (t : TimeTracker), t.is_running = false →
      ExecutionTimeTracker.calls f loc line l t =
        { t with track_log := { t.track_log with
            start := t.track_log.start ++ l.map (fun p => p.1),
            stop := t.track_log.stop ++ l.map (fun p => p.2.1) } } := by
  intro l
  induction l with
  | nil =>
      intro t _
      simp [ExecutionTimeTracker.calls]
  | cons p rest ih =>
      intro t h
      obtain ⟨a, b, x⟩ := p
      obtain ⟨nm, ir, el, tot, ⟨sl, pl, bl⟩, fn⟩ := t
      have h' : ir = false := h
      subst h'
      simp only [ExecutionTimeTracker.calls]
      rw [ih _ rfl]
      simp [ExecutionTimeTracker.call, TimeTracker.start, TimeTracker.stop]

/-- Claim C1 (refuted by the code): after `start(t=0)`, `stop(t=1)`,
`start(t=2)` and one `get_elapsed_time()`, the tracker is still running
yet the start and stop logs have equal length, because the query popped
the unmatched start out of the shared `start` list.  The reachable-state
invariant "length difference is 1 exactly when running" therefore fails. -/
theorem start_stop_start_query_breaks_log_invariant :
    ((TimeTracker.get_elapsed_time "g.py" 13
        (TimeTracker.start "g.py" 12 2
          (TimeTracker.stop "g.py" 11 1
            (TimeTracker.start "g.py" 10 0
              (TimeTracker.init "a")).state).state).state).state.is_running = true)
  ∧ ((TimeTracker.get_elapsed_time "g.py" 13
        (TimeTracker.start "g.py" 12 2
          (TimeTracker.stop "g.py" 11 1
            (TimeTracker.start "g.py" 10 0
              (TimeTracker.init "a")).state).state).state).state.track_log.start.length =
      (TimeTracker.get_elapsed_time "g.py" 13
        (TimeTracker.start "g.py" 12 2
          (TimeTracker.stop "g.py" 11 1
            (TimeTracker.start "g.py" 10 0
              (TimeTracker.init "a")).state).state).state).state.track_log.stop.length) := by
  decide

/-- Claim C2 (refuted by the code): with one completed pair, the first
`get_elapsed_time()` succeeds and returns 1, but the second raises
`UnboundLocalError`, because the accumulator is only initialised when
`self.elapsed_time is None`. -/
theorem second_elapsed_query_raises_unbound_local :
    ((TimeTracker.get_elapsed_time "g.py" 13
        (TimeTracker.stop "g.py" 11 1
          (TimeTracker.start "g.py" 10 0
            (TimeTracker.init "a")).state).state).out = .ret (.num 1))
  ∧ ((TimeTracker.get_elapsed_time "g.py" 14
        (TimeTracker.get_elapsed_time "g.py" 13
          (TimeTracker.stop "g.py" 11 1
            (TimeTracker.start "g.py" 10 0
              (TimeTracker.init "a")).state).state).state).out =
      .exn "UnboundLocalError") := by
  norm_num [TimeTracker.get_elapsed_time, TimeTracker.get_elapsed_time_body,
    TimeTracker.start, TimeTracker.stop, TimeTracker.init,
    TimeTracker._save_block_log, TimeTracker.zipSum]

/-- Claim C3 (refuted by the code): querying while running does warn and
does return the sum over the completed pairs, but it also removes the
unmatched start from `start_log`: before the query the start log is
`[0, 2]`, afterwards it is `[0]`. -/
theorem open_query_mutates_start_log :
    ((TimeTracker.start "g.py" 12 2
        (TimeTracker.stop "g.py" 11 1
          (TimeTracker.start "g.py" 10 0
            (TimeTracker.init "a")).state).state).state.track_log.start = [0, 2])
  ∧ ((TimeTracker.get_elapsed_time "g.py" 13
        (TimeTracker.start "g.py" 12 2
          (TimeTracker.stop "g.py" 11 1
            (TimeTracker.start "g.py" 10 0
              (TimeTracker.init "a")).state).state).state).out = .ret (.num 1))
  ∧ ((TimeTracker.get_elapsed_time "g.py" 13
        (TimeTracker.start "g.py" 12 2
          (TimeTracker.stop "g.py" 11 1
            (TimeTracker.start "g.py" 10 0
              (TimeTracker.init "a")).state).state).state).warns =
      ["Opened tracker. Only closed trackers will be calculated."])
  ∧ ((TimeTracker.get_elapsed_time "g.py" 13
        (TimeTracker.start "g.py" 12 2
          (TimeTracker.stop "g.py" 11 1
            (TimeTracker.start "g.py" 10 0
              (TimeTracker.init "a")).state).state).state).state.track_log.start = [0]) := by
  norm_num [TimeTracker.get_elapsed_time, TimeTracker.get_elapsed_time_body,
    TimeTracker.start, TimeTracker.stop, TimeTracker.init,
    TimeTracker._save_block_log, TimeTracker.zipSum]

/-- Claim C7: a `start()` while running, or a `stop()` while stopped, only
appends one blocked record; run state and the start and stop logs are
untouched, nothing is raised, and the call returns `None`. -/
theorem blocked_start_stop_only_append_blocked
    (loc : String) (line : Nat) (ts : ℚ) (t : TimeTracker) :
    (t.is_running = true →
      TimeTracker.start loc line ts t =
        { state := { t with track_log := { t.track_log with
            blocked := t.track_log.blocked ++
              [BlockedEntry.tup loc line "Blocked: TimeTracker.start; Double call!"] } }
          out := .ret .none
          warns := ["Blocked: TimeTracker.start; Double call!"] })
  ∧ (t.is_running = false →
      TimeTracker.stop loc line ts t =
        { state := { t with track_log := { t.track_log with
            blocked := t.track_log.blocked ++
              [BlockedEntry.tup loc line "Blocked: TimeTracker.stop; Double call!"] } }
          out := .ret .none
          warns := ["Blocked: TimeTracker.stop; Double call!"] }) := by
  obtain ⟨nm, ir, el, tot, ⟨sl, pl, bl⟩, fn⟩ := t
  constructor
  · intro h
    have h' : ir = true := h
    subst h'
    rfl
  · intro h
    have h' : ir = false := h
    subst h'
    rfl

/-- Witness for C7 at concrete inputs: a running tracker rejects `start`,
a fresh tracker rejects `stop`; both return `None`. -/
theorem blocked_start_stop_only_append_blocked_witness :
    (TimeTracker.start "g.py" 2 7
      (TimeTracker.start "g.py" 1 0 (TimeTracker.init "a")).state).out = .ret .none
  ∧ (TimeTracker.stop "g.py" 3 7 (TimeTracker.init "a")).out = .ret .none := by
  have h1 := (blocked_start_stop_only_append_blocked "g.py" 2 7
    (TimeTracker.start "g.py" 1 0 (TimeTracker.init "a")).state).1 rfl
  have h2 := (blocked_start_stop_only_append_blocked "g.py" 3 7
    (TimeTracker.init "a")).2 rfl
  exact ⟨by rw [h1], by rw [h2]⟩

/-- Claim C8: a premature `get_elapsed_time()` (no start yet, or no stop
yet) returns `None`, appends one blocked record with the corresponding
reason, warns, raises nothing, and leaves the start and stop logs as they
were. -/
theorem premature_query_returns_unavailable
    (loc : String) (line : Nat) (t : TimeTracker) :
    (t.track_log.start = [] →
      TimeTracker.get_elapsed_time loc line t =
        { state := { t with track_log := { t.track_log with
            blocked := t.track_log.blocked ++
              [BlockedEntry.tup loc line
                "Blocked: TimeTracker.get_elapsed_time; The tracker hasn\x27t started yet!"] } }
          out := .ret .none
          warns := ["Blocked: TimeTracker.get_elapsed_time; The tracker hasn\x27t started yet!"] })
  ∧ (t.track_log.start ≠ [] → t.track_log.stop = [] →
      TimeTracker.get_elapsed_time loc line t =
        { state := { t with track_log := { t.track_log with
            blocked := t.track_log.blocked ++
              [BlockedEntry.tup loc line
                "Blocked: TimeTracker.get_elapsed_time; The tracker hasn\x27t been completed yet!"] } }
          out := .ret .none
          warns := ["Blocked: TimeTracker.get_elapsed_time; The tracker hasn\x27t been completed yet!"] }) := by
  obtain ⟨nm, ir, el, tot, ⟨sl, pl, bl⟩, fn⟩ := t
  constructor
  · intro h
    have h' : sl = [] := h
    subst h'
    rfl
  · intro h1 h2
    have h1' : sl ≠ [] := h1
    have h2' : pl = [] := h2
    subst h2'
    obtain ⟨a, sl', rfl⟩ := List.exists_cons_of_ne_nil h1'
    rfl

/-- Witness for C8 at concrete inputs: a fresh tracker, and a tracker with
one start and no stop, both report an unavailable result. -/
theorem premature_query_returns_unavailable_witness :
    (TimeTracker.get_elapsed_time "g.py" 5 (TimeTracker.init "a")).out = .ret .none
  ∧ (TimeTracker.get_elapsed_time "g.py" 6
      (TimeTracker.start "g.py" 1 0 (TimeTracker.init "a")).state).out = .ret .none := by
  have h1 := (premature_query_returns_unavailable "g.py" 5 (TimeTracker.init "a")).1 rfl
  have h2 := (premature_query_returns_unavailable "g.py" 6
    (TimeTracker.start "g.py" 1 0 (TimeTracker.init "a")).state).2 (by decide) rfl
  exact ⟨by rw [h1], by rw [h2]⟩

/-- Counterexample to claim C4: a file that parses but carries only the
`name` key makes `load` fail with a key error after the `name` field has
already been replaced, so the tracker is incompletely populated. -/
theorem load_missing_key_partially_replaces :
    ((TimeTracker.load (TimeTracker.init "t")
        (some ⟨some "other", Option.none, Option.none, Option.none,
          Option.none⟩)).2 = .exn "KeyError: is_running")
  ∧ ((TimeTracker.load (TimeTracker.init "t")
        (some ⟨some "other", Option.none, Option.none, Option.none,
          Option.none⟩)).1.name ≠ (TimeTracker.init "t").name) := by
  decide

/-- Claim C4 as amended: an unparseable file makes `load` fail with the
tracker untouched, and so does a file missing the `name` key; but a file
whose object lacks a later required key fails only after the keys before
it — in the fixed order `name`, `is_running`, `elapsed_time`,
`total_elapsed_time`, `log` — have already replaced the in-memory fields.
A complete file replaces every field and succeeds. -/
theorem load_failure_characterisation (t : TimeTracker) (d : TimeTracker.FileData) :
    (TimeTracker.load t Option.none = (t, .exn "JSONDecodeError"))
  ∧ (d.name_field = Option.none →
      TimeTracker.load t (some d) = (t, .exn "KeyError: name"))
  ∧ (∀ nm, d.name_field = some nm → d.running_field = Option.none →
      TimeTracker.load t (some d) =
        ({ t with name := nm }, .exn "KeyError: is_running"))
  ∧ (∀ nm r, d.name_field = some nm → d.running_field = some r →
      d.elapsed_field = Option.none →
      TimeTracker.load t (some d) =
        ({ t with name := nm, is_running := r }, .exn "KeyError: elapsed_time"))
  ∧ (∀ nm r e, d.name_field = some nm → d.running_field = some r →
      d.elapsed_field = some e → d.total_field = Option.none →
      TimeTracker.load t (some d) =
        ({ t with name := nm, is_running := r, elapsed_time := e },
         .exn "KeyError: total_elapsed_time"))
  ∧ (∀ nm r e tot, d.name_field = some nm → d.running_field = some r →
      d.elapsed_field = some e → d.total_field = some tot →
      d.log_field = Option.none →
      TimeTracker.load t (some d) =
        ({ t with
            name := nm
            is_running := r
            elapsed_time := e
            total_elapsed_time := tot }, .exn "KeyError: log"))
  ∧ (∀ nm r e tot lg, d.name_field = some nm → d.running_field = some r →
      d.elapsed_field = some e → d.total_field = some tot →
      d.log_field = some lg →
      TimeTracker.load t (some d) =
        ({ t with
            name := nm
            is_running := r
            elapsed_time := e
            total_elapsed_time := tot
            track_log := lg }, .ret .none)) := by
  obtain ⟨nf, rf, ef, tf, lf⟩ := d
  refine ⟨rfl, ?_, ?_, ?_, ?_, ?_, ?_⟩
  · intro h
    have h' : nf = Option.none := h
    subst h'
    rfl
  · intro nm h1 h2
    have h1' : nf = some nm := h1
    have h2' : rf = Option.none := h2
    subst h1'
    subst h2'
    rfl
  · intro nm r h1 h2 h3
    have h1' : nf = some nm := h1
    have h2' : rf = some r := h2
    have h3' : ef = Option.none := h3
    subst h1'
    subst h2'
    subst h3'
    rfl
  · intro nm r e h1 h2 h3 h4
    have h1' : nf = some nm := h1
    have h2' : rf = some r := h2
    have h3' : ef = some e := h3
    have h4' : tf = Option.none := h4
    subst h1'
    subst h2'
    subst h3'
    subst h4'
    rfl
  · intro nm r e tot h1 h2 h3 h4 h5
    have h1' : nf = some nm := h1
    have h2' : rf = some r := h2
    have h3' : ef = some e := h3
    have h4' : tf = some tot := h4
    have h5' : lf = Option.none := h5
    subst h1'
    subst h2'
    subst h3'
    subst h4'
    subst h5'
    rfl
  · intro nm r e tot lg h1 h2 h3 h4 h5
    have h1' : nf = some nm := h1
    have h2' : rf = some r := h2
    have h3' : ef = some e := h3
    have h4' : tf = some tot := h4
    have h5' : lf = some lg := h5
    subst h1'
    subst h2'
    subst h3'
    subst h4'
    subst h5'
    rfl

/-- Witness for the amended C4 at a concrete input: a file carrying only
the `name` key replaces `name` and then fails. -/
theorem load_failure_characterisation_witness :
    TimeTracker.load (TimeTracker.init "t")
      (some ⟨some "u", Option.none, Option.none, Option.none, Option.none⟩) =
      ({ TimeTracker.init "t" with name := "u" }, .exn "KeyError: is_running") :=
  (load_failure_characterisation (TimeTracker.init "t")
    ⟨some "u", Option.none, Option.none, Option.none, Option.none⟩).2.2.1 "u" rfl rfl

/-- Counterexample to claim C5: a tracker holding one blocked record (a
Python tuple) is saved and loaded back into a fresh tracker of the same
name; the load succeeds, but the reloaded blocked log differs from the
original one, because the tuple came back as a list. -/
theorem round_trip_blocked_tuple_becomes_list :
    ((TimeTracker.load (TimeTracker.init "a")
        (some (TimeTracker.save_data
          (TimeTracker.stop "g.py" 8 5 (TimeTracker.init "a")).state))).2 =
      .ret .none)
  ∧ ((TimeTracker.load (TimeTracker.init "a")
        (some (TimeTracker.save_data
          (TimeTracker.stop "g.py" 8 5 (TimeTracker.init "a")).state))).1.track_log.blocked ≠
      (TimeTracker.stop "g.py" 8 5 (TimeTracker.init "a")).state.track_log.blocked) := by
  decide

/-- Claim C5 as amended: `save()` followed by `load()` into a fresh tracker
of the same name succeeds and reproduces `name`, `is_running`,
`elapsed_time`, `total_elapsed_time` and the start and stop logs exactly;
each blocked record keeps its location, line and reason, but its container
becomes a list (JSON array) instead of a tuple. -/
theorem save_load_round_trip (t : TimeTracker) :
    ((TimeTracker.load (TimeTracker.init t.name)
        (some (TimeTracker.save_data t))).2 = .ret .none)
  ∧ ((TimeTracker.load (TimeTracker.init t.name)
        (some (TimeTracker.save_data t))).1.name = t.name)
  ∧ ((TimeTracker.load (TimeTracker.init t.name)
        (some (TimeTracker.save_data t))).1.is_running = t.is_running)
  ∧ ((TimeTracker.load (TimeTracker.init t.name)
        (some (TimeTracker.save_data t))).1.elapsed_time = t.elapsed_time)
  ∧ ((TimeTracker.load (TimeTracker.init t.name)
        (some (TimeTracker.save_data t))).1.total_elapsed_time = t.total_elapsed_time)
  ∧ ((TimeTracker.load (TimeTracker.init t.name)
        (some (TimeTracker.save_data t))).1.track_log.start = t.track_log.start)
  ∧ ((TimeTracker.load (TimeTracker.init t.name)
        (some (TimeTracker.save_data t))).1.track_log.stop = t.track_log.stop)
  ∧ ((TimeTracker.load (TimeTracker.init t.name)
        (some (TimeTracker.save_data t))).1.track_log.blocked =
      t.track_log.blocked.map BlockedEntry.jsonRoundTrip) :=
  ⟨rfl, rfl, rfl, rfl, rfl, rfl, rfl, rfl⟩

/-- Counterexample to claim C6: a stopped tracker with two completed pairs
whose `elapsed_time` was already set by an earlier query (a reachable
state) makes the next `get_elapsed_time()` raise `UnboundLocalError`
instead of returning the sum. -/
theorem completed_pairs_requery_raises :
    ((TimeTracker.get_elapsed_time "g.py" 15
        (TimeTracker.get_elapsed_time "g.py" 14
          (TimeTracker.stop "g.py" 13 3
            (TimeTracker.start "g.py" 12 2
              (TimeTracker.stop "g.py" 11 1
                (TimeTracker.start "g.py" 10 0
                  (TimeTracker.init "a")).state).state).state).state).state).out =
      .exn "UnboundLocalError")
  ∧ ((TimeTracker.get_elapsed_time "g.py" 14
        (TimeTracker.stop "g.py" 13 3
          (TimeTracker.start "g.py" 12 2
            (TimeTracker.stop "g.py" 11 1
              (TimeTracker.start "g.py" 10 0
                (TimeTracker.init "a")).state).state).state).state).out =
      .ret (.num 2)) := by
  norm_num [TimeTracker.get_elapsed_time, TimeTracker.get_elapsed_time_body,
    TimeTracker.start, TimeTracker.stop, TimeTracker.init,
    TimeTracker._save_block_log, TimeTracker.zipSum]

/-- Claim C6 as amended: on a stopped tracker with `N ≥ 1` completed pairs
whose `elapsed_time` is still unset (its first query), `get_elapsed_time()`
returns the sum of the pairwise differences and sets `total_elapsed_time`
to last stop minus first start; under chronological timestamps the total
bounds the sum from above, with equality when the intervals leave no
gaps. -/
theorem first_query_sums_completed_pairs
    (loc : String) (line : Nat) (t : TimeTracker)
    (hrun : t.is_running = false)
    (hel : t.elapsed_time = Option.none)
    (hne : t.track_log.start ≠ [])
    (hlen : t.track_log.start.length = t.track_log.stop.length)
    (hchron : chronLogs t.track_log.start t.track_log.stop = true) :
    ((TimeTracker.get_elapsed_time loc line t).out =
      .ret (.num (TimeTracker.zipSum t.track_log.start t.track_log.stop)))
  ∧ ((TimeTracker.get_elapsed_time loc line t).state.total_elapsed_time =
      some (t.track_log.stop.getLastD 0 - t.track_log.start.headD 0))
  ∧ (TimeTracker.zipSum t.track_log.start t.track_log.stop ≤
      t.track_log.stop.getLastD 0 - t.track_log.start.headD 0)
  ∧ (gaplessLogs t.track_log.start t.track_log.stop = true →
      TimeTracker.zipSum t.track_log.start t.track_log.stop =
        t.track_log.stop.getLastD 0 - t.track_log.start.headD 0) := by
  obtain ⟨nm, ir, el, tot, ⟨sl, pl, bl⟩, fn⟩ := t
  have hrun' : ir = false := hrun
  have hel' : el = Option.none := hel
  subst hrun'
  subst hel'
  have hne' : sl ≠ [] := hne
  obtain ⟨a, sl', rfl⟩ := List.exists_cons_of_ne_nil hne'
  have hlen' : (a :: sl').length = pl.length := hlen
  cases pl with
  | nil => simp at hlen'
  | cons b pl' =>
      have hlen'' : sl'.length = pl'.length := by simpa using hlen'
      refine ⟨rfl, rfl, ?_, ?_⟩
      · exact zipSum_le_span sl' a b pl' hlen'' hchron
      · intro hgap
        exact zipSum_eq_span_of_gapless sl' a b pl' hlen'' hgap

/-- Witness for the amended C6 at a concrete input: pairs (0,1) and (2,3)
give elapsed 2 and total 3. -/
theorem first_query_sums_completed_pairs_witness :
    ((TimeTracker.get_elapsed_time "g.py" 9
        ⟨"a", false, Option.none, Option.none, ⟨[0, 2], [1, 3], []⟩,
          "chronodata_a.json"⟩).out = .ret (.num 2))
  ∧ ((TimeTracker.get_elapsed_time "g.py" 9
        ⟨"a", false, Option.none, Option.none, ⟨[0, 2], [1, 3], []⟩,
          "chronodata_a.json"⟩).state.total_elapsed_time = some 3) := by
  have h := first_query_sums_completed_pairs "g.py" 9
    ⟨"a", false, Option.none, Option.none, ⟨[0, 2], [1, 3], []⟩,
      "chronodata_a.json"⟩
    rfl rfl (by decide) rfl (by norm_num [chronLogs])
  refine ⟨?_, ?_⟩
  · rw [h.1]
    norm_num [TimeTracker.zipSum]
  · rw [h.2.1]
    norm_num

/-- Claim C9: one invocation of the wrapper on a non-running tracker
returns the result of the callable, appends one start and one stop, and
leaves the tracker stopped; `N` invocations from a fresh wrapper leave `N`
completed pairs, and a following elapsed-time query returns the sum over
all `N` pairs. -/
theorem execution_tracker_call_behaviour {α β : Type} (f : α → β)
    (loc : String) (line : Nat) (a b : ℚ) (x : α) (t : TimeTracker)
    (qn : String) (l : List (ℚ × ℚ × α))
    (hrun : t.is_running = false) (hl : l ≠ []) :
    ((ExecutionTimeTracker.call f loc line a b t x).2 = f x)
  ∧ ((ExecutionTimeTracker.call f loc line a b t x).1 =
      { t with track_log := { t.track_log with
          start := t.track_log.start ++ [a],
          stop := t.track_log.stop ++ [b] } })
  ∧ ((ExecutionTimeTracker.call f loc line a b t x).1.is_running = false)
  ∧ ((ExecutionTimeTracker.calls f loc line l
      (ExecutionTimeTracker.init qn)).track_log.start = l.map (fun p => p.1))
  ∧ ((ExecutionTimeTracker.calls f loc line l
      (ExecutionTimeTracker.init qn)).track_log.stop = l.map (fun p => p.2.1))
  ∧ ((ExecutionTimeTracker.calls f loc line l
      (ExecutionTimeTracker.init qn)).is_running = false)
  ∧ ((TimeTracker.get_elapsed_time loc line
      (ExecutionTimeTracker.calls f loc line l (ExecutionTimeTracker.init qn))).out =
      .ret (.num (TimeTracker.zipSum (l.map (fun p => p.1))
        (l.map (fun p => p.2.1))))) := by
  have hcalls := calls_appends f loc line l (ExecutionTimeTracker.init qn) rfl
  obtain ⟨nm, ir, el, tot, ⟨sl, pl, bl⟩, fn⟩ := t
  have hrun' : ir = false := hrun
  subst hrun'
  refine ⟨rfl, rfl, rfl, ?_, ?_, ?_, ?_⟩
  · rw [hcalls]
    simp [ExecutionTimeTracker.init, TimeTracker.init]
  · rw [hcalls]
    simp [ExecutionTimeTracker.init, TimeTracker.init]
  · rw [hcalls]
    rfl
  · obtain ⟨p, l', rfl⟩ := List.exists_cons_of_ne_nil hl
    rw [hcalls]
    rfl

/-- Witness for C9 at a concrete input: wrapping `f(x) = x * 2` and calling
it with 5 returns 10; one invocation with the interval (0, 1) leaves one
completed pair, and the elapsed-time query reports 1. -/
theorem execution_tracker_call_behaviour_witness :
    ((ExecutionTimeTracker.call (fun q : ℚ => q * 2) "g.py" 3 0 1
      (TimeTracker.init "f") 5).2 = 10)
  ∧ ((TimeTracker.get_elapsed_time "g.py" 3
      (ExecutionTimeTracker.calls (fun q : ℚ => q * 2) "g.py" 3
        [(0, 1, 5)] (ExecutionTimeTracker.init "f"))).out = .ret (.num 1)) := by
  have h := execution_tracker_call_behaviour (fun q : ℚ => q * 2) "g.py" 3 0 1
    (5 : ℚ) (TimeTracker.init "f") "f" [(0, 1, 5)] rfl (by decide)
  refine ⟨?_, ?_⟩
  · rw [h.1]
    norm_num
  · rw [h.2.2.2.2.2.2]
    norm_num [TimeTracker.zipSum]

/-- Claim C10: `load` takes on the persisted name but never touches
`file_name`, so a tracker constructed with name `n0` still saves to
`chronodata_<n0>.json` after loading data recorded under another name. -/
theorem load_keeps_file_name (n0 nm : String) (r : Bool) (e tot : Option ℚ)
    (lg : TrackLog) (d : TimeTracker.FileData)
    (h1 : d.name_field = some nm) (h2 : d.running_field = some r)
    (h3 : d.elapsed_field = some e) (h4 : d.total_field = some tot)
    (h5 : d.log_field = some lg) :
    ((TimeTracker.load (TimeTracker.init n0) (some d)).2 = .ret .none)
  ∧ ((TimeTracker.load (TimeTracker.init n0) (some d)).1.name = nm)
  ∧ ((TimeTracker.load (TimeTracker.init n0) (some d)).1.file_name =
      "chronodata_" ++ n0 ++ ".json")
  ∧ (∀ t : TimeTracker, (TimeTracker.load t (some d)).1.file_name = t.file_name)
  ∧ (TimeTracker.save_path (TimeTracker.load (TimeTracker.init n0) (some d)).1
      Option.none = "chronodata_" ++ n0 ++ ".json") := by
  obtain ⟨nf, rf, ef, tf, lf⟩ := d
  have h1' : nf = some nm := h1
  have h2' : rf = some r := h2
  have h3' : ef = some e := h3
  have h4' : tf = some tot := h4
  have h5' : lf = some lg := h5
  subst h1'
  subst h2'
  subst h3'
  subst h4'
  subst h5'
  exact ⟨rfl, rfl, rfl, fun t => rfl, rfl⟩

/-- Witness for C10 at a concrete input: after loading data named `u` into
a tracker constructed as `t`, a save still targets `chronodata_t.json`. -/
theorem load_keeps_file_name_witness :
    ((TimeTracker.load (TimeTracker.init "t")
      (some ⟨some "u", some true, some Option.none, some Option.none,
        some ⟨[], [], []⟩⟩)).1.name = "u")
  ∧ (TimeTracker.save_path (TimeTracker.load (TimeTracker.init "t")
      (some ⟨some "u", some true, some Option.none, some Option.none,
        some ⟨[], [], []⟩⟩)).1 Option.none = "chronodata_t.json") := by
  have h := load_keeps_file_name "t" "u" true Option.none Option.none
    ⟨[], [], []⟩
    ⟨some "u", some true, some Option.none, some Option.none, some ⟨[], [], []⟩⟩
    rfl rfl rfl rfl rfl
  refine ⟨?_, ?_⟩
  · rw [h.2.1]
  · rw [h.2.2.2.2]
    rfl

end Chronokit
